import Mathlib

/-!
Shallow embedding of `src/server.js`, an Express + Mongoose backend for a
tutoring platform.  Documents of the Mongo store are modelled as an identifier
together with an association list of fields over a JSON-value type; each
request handler of the source becomes a Lean function from the relevant
collection(s) and the parsed request body to an HTTP response and the updated
collection.  A store (driver) failure is injected through a boolean `dbOk`
flag: every awaited store operation is wrapped in `dbCall`, which raises in
the `Except` monad when `dbOk` is false.  A JavaScript `try { … } catch`
around a handler body is the eliminator `jsTryCatch`; a handler that has no
`try`/`catch` in the source (the teacher login) is left in `Except`, so that
an escaping rejection is visible in its type.  `bcryptjs` is modelled by an
injective tagging hash; `bcrypt.hash`/`bcrypt.compare` raise (as the library
does) when the plaintext argument is not a string, e.g. when the request body
omitted the field.  Mongoose schema casting and strict-mode filtering are
abstracted: the store is schemaless and an update is a `$set` of the body's
fields, which is the behaviour on the schema-conforming bodies the endpoints
are specified for.
-/

/-- A JSON/JavaScript value as far as the handlers inspect one:
strings, numbers (integers suffice for this server), booleans and null. -/
inductive JVal where
  | vstr : String → JVal
  | vnum : Int → JVal
  | vbool : Bool → JVal
  | vnull : JVal
deriving DecidableEq, Repr

/-- A stored document: the server-assigned identifier (`_id`) and the
remaining fields as an association list. -/
structure Doc where
  id : Nat
  fields : List (String × JVal)
deriving DecidableEq, Repr

/-- First-occurrence lookup of a field in an association list. -/
def lookupF : List (String × JVal) → String → Option JVal
  | [], _ => none
  | (k', v) :: rest, k => if k' = k then some v else lookupF rest k

/-- Field access on a document, as a Mongo query sees it: `none` when the
field is absent. -/
def Doc.get (d : Doc) (k : String) : Option JVal :=
  lookupF d.fields k

/-- Field access on a document as JavaScript member access sees it: absent
fields read as `null` here (standing for `undefined`). -/
def Doc.getJ (d : Doc) (k : String) : JVal :=
  (lookupF d.fields k).getD JVal.vnull

/-- `$set` of a single field: replace the field if the key is present,
append it otherwise. -/
def setField (fs : List (String × JVal)) (k : String) (v : JVal) :
    List (String × JVal) :=
  if (lookupF fs k).isSome then
    fs.map (fun p => if p.1 = k then (k, v) else p)
  else
    fs ++ [(k, v)]

/-- Apply a flat update body to a document's fields: `$set` of every pair of
the body, in order (the semantics of `findByIdAndUpdate(id, req.body)` on a
flat body, with schema strictness abstracted away). -/
def applyUpdate (fs body : List (String × JVal)) : List (String × JVal) :=
  body.foldl (fun acc p => setField acc p.1 p.2) fs

/-- `Model.findById(id)`: the first document carrying the identifier. -/
def findById (c : List Doc) (i : Nat) : Option Doc :=
  c.find? (fun d => d.id = i)

/-- `Model.findByIdAndUpdate(id, body, { new: true })`: the updated document
(`none` when the identifier does not resolve) and the updated collection. -/
def findByIdAndUpdate (c : List Doc) (i : Nat) (body : List (String × JVal)) :
    Option Doc × List Doc :=
  match findById c i with
  | none => (none, c)
  | some d =>
      let d' : Doc := ⟨d.id, applyUpdate d.fields body⟩
      (some d', c.map (fun e => if e.id = i then d' else e))

/-- `Model.findByIdAndDelete(id)`: the removed document (`none` when the
identifier does not resolve) and the updated collection. -/
def findByIdAndDelete (c : List Doc) (i : Nat) : Option Doc × List Doc :=
  match findById c i with
  | none => (none, c)
  | some d => (some d, c.filter (fun e => e.id ≠ i))

/-- Drop one field from a document (the Mongo projection `{ field: 0 }`). -/
def omitField (d : Doc) (k : String) : Doc :=
  ⟨d.id, d.fields.filter (fun p => p.1 ≠ k)⟩

/-- An HTTP response body as the handlers build one: nothing (`res.send()`
after 204), a flat JSON object, a flat object together with one
document-valued key (`{ message, lesson: doc }`, `{ message, user: {…} }`),
or a JSON array of documents. -/
inductive RespBody where
  | empty : RespBody
  | obj : List (String × JVal) → RespBody
  | withDoc : List (String × JVal) → String → Doc → RespBody
  | docs : List Doc → RespBody
deriving DecidableEq, Repr

/-- An HTTP response: status code and body. -/
structure Response where
  status : Nat
  body : RespBody
deriving DecidableEq, Repr

/-- Model of `bcrypt.hash(pw, 10)` on a string argument: an injective tagging
stand-in for the bcrypt digest (the handlers only ever store a digest and
later compare against it). -/
def bcryptHash (pw : String) : String :=
  "$2a$10$" ++ pw

/-- Model of `await bcrypt.hash(data, 10)` where `data` came out of the
request body: `bcryptjs` rejects with `Illegal arguments` when `data` is not
a string (in particular when the field was absent). -/
def bcryptHashF : Option String → Except String String
  | none => .error "Illegal arguments"
  | some p => .ok (bcryptHash p)

/-- Model of `await bcrypt.compare(data, hash)`: rejects when `data` is not a
string (absent body field) or the stored hash is not a string; otherwise
reports whether the hash is the digest of `data`. -/
def bcryptCompare (pw : Option String) (hash : JVal) : Except String Bool :=
  match pw with
  | none => .error "Illegal arguments"
  | some p =>
      match hash with
      | .vstr h => .ok (bcryptHash p = h)
      | _ => .error "Illegal arguments"

/-- An awaited store operation: rejects when the store is down. -/
def dbCall {α : Type} (dbOk : Bool) (a : α) : Except String α :=
  if dbOk then .ok a else .error "db"

/-- JavaScript `try { body } catch (error) { res.status(500).json(…) }`
around a handler body: an escaping rejection becomes the generic 500
response, with the collection as it was before the handler ran. -/
def jsTryCatch (st : List Doc) (errResp : Response)
    (body : Except String (Response × List Doc)) : Response × List Doc :=
  match body with
  | .ok r => r
  | .error _ => (errResp, st)

/-- JavaScript falsiness of an optional string field of a request body:
the field is absent (`undefined`) or the empty string. -/
def falsy : Option String → Bool
  | none => true
  | some s => s = ""

/-- The parsed body of `POST /api/auth/register`, as destructured by the
handler. -/
structure RegisterBody where
  fullName : Option String
  studentNumber : Option String
  parentNumber : Option String
  password : Option String
  gradeLevel : Option String
deriving DecidableEq, Repr

/-- The handler's guard `!fullName || !studentNumber || !parentNumber ||
!password || !gradeLevel`. -/
def regMissing (b : RegisterBody) : Bool :=
  falsy b.fullName || falsy b.studentNumber || falsy b.parentNumber ||
    falsy b.password || falsy b.gradeLevel

/-- `Student.findOne({ $or: [{ studentNumber }, { fullName }] })`. -/
def findDupStudent (students : List Doc) (sn fn : String) : Option Doc :=
  students.find? (fun d =>
    d.get "studentNumber" = some (.vstr sn) || d.get "fullName" = some (.vstr fn))

/-- The document built by `new Student({...})` in the register handler. -/
def newStudentDoc (i : Nat) (fn sn pn pw gl : String) : Doc :=
  ⟨i, [("fullName", .vstr fn), ("studentNumber", .vstr sn),
       ("parentNumber", .vstr pn), ("password", .vstr (bcryptHash pw)),
       ("gradeLevel", .vstr gl), ("type", .vstr "student"),
       ("balance", .vnum 0), ("points", .vnum 0), ("isBanned", .vbool false)]⟩

/-- `POST /api/auth/register` (src/server.js:280-315).  Missing (falsy)
field → 400; duplicate student number or full name → 409; otherwise hash the
password, save the new Student and answer 201 with its identifier.  The whole
body is wrapped in `try`/`catch` mapping a store failure to 500. -/
def register (dbOk : Bool) (students : List Doc) (nextId : Nat)
    (b : RegisterBody) : Response × List Doc :=
  jsTryCatch students ⟨500, .obj [("message", .vstr "Server error during registration.")]⟩ <| do
    match b.fullName, b.studentNumber, b.parentNumber, b.password, b.gradeLevel with
    | some fn, some sn, some pn, some pw, some gl =>
        if fn = "" || sn = "" || pn = "" || pw = "" || gl = "" then
          return (⟨400, .obj [("message", .vstr "All fields are required.")]⟩, students)
        else
          let existingStudent ← dbCall dbOk (findDupStudent students sn fn)
          match existingStudent with
          | some _ =>
              return (⟨409, .obj [("message",
                .vstr "Student with this number or name already exists.")]⟩, students)
          | none =>
              let newStudent := newStudentDoc nextId fn sn pn pw gl
              let _ ← dbCall dbOk ()   -- await newStudent.save()
              return (⟨201, .obj [("message", .vstr "Student registered successfully"),
                ("studentId", .vnum nextId)]⟩, students ++ [newStudent])
    | _, _, _, _, _ =>
        return (⟨400, .obj [("message", .vstr "All fields are required.")]⟩, students)

/-- `Teacher.findOne({ teacherCode: code })`. -/
def findTeacherByCode (teachers : List Doc) (code : String) : Option Doc :=
  teachers.find? (fun d => d.get "teacherCode" = some (.vstr code))

/-- The document built by `new Teacher({...})` in the teacher-login handler. -/
def newTeacherDoc (i : Nat) (n c p : String) : Doc :=
  ⟨i, [("fullName", .vstr n), ("teacherCode", .vstr c),
       ("phoneNumber", .vstr p),
       ("password", .vstr (bcryptHash "teacher_default_password")),
       ("type", .vstr "teacher")]⟩

/-- The `{ message, user: { id, name, type } }` success payload of the two
login handlers. -/
def loginOkBody (msg : String) (u : Doc) (ty : String) : RespBody :=
  .withDoc [("message", .vstr msg)] "user"
    ⟨u.id, [("name", u.getJ "fullName"), ("type", .vstr ty)]⟩

/-- `POST /api/auth/teacher-login` (src/server.js:318-345).  The submitted
name/code/phone are compared against the hardcoded triple; on match the
handler finds or creates the Teacher document and answers 200, otherwise it
answers 401.  Note this handler has NO `try`/`catch` in the source, so its
result stays in `Except`: a store failure escapes as an unhandled rejection
instead of becoming a 500 response. -/
def teacherLogin (dbOk : Bool) (teachers : List Doc) (nextId : Nat)
    (name code phone : String) : Except String (Response × List Doc) := do
  if name = "Mahmoud only" && code = "HHDV/58HR" && phone = "01050747978" then
    let teacher ← dbCall dbOk (findTeacherByCode teachers code)
    match teacher with
    | some t =>
        return (⟨200, loginOkBody "Teacher login successful" t "teacher"⟩, teachers)
    | none =>
        let t := newTeacherDoc nextId name code phone
        let _ ← dbCall dbOk ()   -- await teacher.save()
        return (⟨200, loginOkBody "Teacher login successful" t "teacher"⟩,
          teachers ++ [t])
  else
    return (⟨401, .obj [("message", .vstr "Invalid teacher credentials.")]⟩, teachers)

/-- The query condition `{ fullName: name, supportCode: code }`. -/
def supportMatch (name code : String) (d : Doc) : Bool :=
  d.get "fullName" = some (.vstr name) && d.get "supportCode" = some (.vstr code)

/-- `SupportStaff.findOne({ fullName: name, supportCode: code })`. -/
def findSupport (staff : List Doc) (name code : String) : Option Doc :=
  staff.find? (supportMatch name code)

/-- `POST /api/auth/support-login` (src/server.js:348-367).  Look up a
SupportStaff by full name and support code (no password on this path); on
match set `isOnline`, stamp `lastActivity` with the current time and save;
otherwise 401.  Wrapped in `try`/`catch` mapping store failures to 500. -/
def supportLogin (dbOk : Bool) (staff : List Doc) (now : Int)
    (name code : String) : Response × List Doc :=
  jsTryCatch staff ⟨500, .obj [("message", .vstr "Server error during support login.")]⟩ <| do
    let supportUser ← dbCall dbOk (findSupport staff name code)
    match supportUser with
    | none =>
        return (⟨401, .obj [("message", .vstr "Invalid support credentials.")]⟩, staff)
    | some u =>
        let u' : Doc := ⟨u.id,
          setField (setField u.fields "isOnline" (.vbool true)) "lastActivity" (.vnum now)⟩
        let _ ← dbCall dbOk ()   -- await supportUser.save()
        return (⟨200, loginOkBody "Support login successful" u' "support"⟩,
          staff.map (fun d => if d.id = u.id then u' else d))

/-- The shared shape of `PUT /api/lessons/:id`, `PUT /api/subscriptions/:id`
and `PUT /api/books/:id` (src/server.js:392-404, 443-455, 532-544):
`findByIdAndUpdate(id, req.body, { new: true })`, 404 when the identifier
does not resolve, otherwise 200 with `{ message, <docKey>: updatedDoc }`;
wrapped in `try`/`catch` mapping store failures to 500. -/
def putById (dbOk : Bool) (coll : List Doc) (i : Nat)
    (body : List (String × JVal)) (okMsg notFoundMsg errMsg docKey : String) :
    Response × List Doc :=
  jsTryCatch coll ⟨500, .obj [("message", .vstr errMsg)]⟩ <| do
    let (updated, coll') ← dbCall dbOk (findByIdAndUpdate coll i body)
    match updated with
    | none => return (⟨404, .obj [("message", .vstr notFoundMsg)]⟩, coll)
    | some d => return (⟨200, .withDoc [("message", .vstr okMsg)] docKey d⟩, coll')

/-- `PUT /api/lessons/:id`. -/
def updateLesson (dbOk : Bool) (lessons : List Doc) (i : Nat)
    (body : List (String × JVal)) : Response × List Doc :=
  putById dbOk lessons i body "Lesson updated successfully" "Lesson not found."
    "Error updating lesson in database." "lesson"

/-- `PUT /api/subscriptions/:id`. -/
def updateSubscription (dbOk : Bool) (subs : List Doc) (i : Nat)
    (body : List (String × JVal)) : Response × List Doc :=
  putById dbOk subs i body "Subscription updated successfully"
    "Subscription not found." "Error updating subscription in database."
    "subscription"

/-- `PUT /api/books/:id`. -/
def updateBook (dbOk : Bool) (books : List Doc) (i : Nat)
    (body : List (String × JVal)) : Response × List Doc :=
  putById dbOk books i body "Book updated successfully" "Book not found."
    "Error updating book in database." "book"

/-- The shared shape of `DELETE /api/lessons/:id`, `/api/subscriptions/:id`,
`/api/general-messages/:id` and `/api/books/:id` (src/server.js:406-418,
457-469, 495-507, 546-558): `findByIdAndDelete(id)`, 404 when the identifier
does not resolve, otherwise 204 with no body; wrapped in `try`/`catch`
mapping store failures to 500. -/
def deleteById (dbOk : Bool) (coll : List Doc) (i : Nat)
    (notFoundMsg errMsg : String) : Response × List Doc :=
  jsTryCatch coll ⟨500, .obj [("message", .vstr errMsg)]⟩ <| do
    let (deleted, coll') ← dbCall dbOk (findByIdAndDelete coll i)
    match deleted with
    | none => return (⟨404, .obj [("message", .vstr notFoundMsg)]⟩, coll)
    | some _ => return (⟨204, .empty⟩, coll')

/-- `DELETE /api/lessons/:id`. -/
def deleteLesson (dbOk : Bool) (lessons : List Doc) (i : Nat) :
    Response × List Doc :=
  deleteById dbOk lessons i "Lesson not found."
    "Error deleting lesson from database."

/-- `DELETE /api/subscriptions/:id`. -/
def deleteSubscription (dbOk : Bool) (subs : List Doc) (i : Nat) :
    Response × List Doc :=
  deleteById dbOk subs i "Subscription not found."
    "Error deleting subscription from database."

/-- `DELETE /api/general-messages/:id`. -/
def deleteGeneralMessage (dbOk : Bool) (msgs : List Doc) (i : Nat) :
    Response × List Doc :=
  deleteById dbOk msgs i "General message not found."
    "Error deleting general message from database."

/-- `DELETE /api/books/:id`. -/
def deleteBook (dbOk : Bool) (books : List Doc) (i : Nat) :
    Response × List Doc :=
  deleteById dbOk books i "Book not found."
    "Error deleting book from database."

/-- The parsed body of `POST /api/payment-methods`. -/
structure PmCreateBody where
  name : Option String
  number : Option String
  password : Option String
deriving DecidableEq, Repr

/-- The fields of `new PaymentMethod({ name, number, password: hashed })`:
a field that was `undefined` in the body is simply not set on the document. -/
def newPaymentMethodFields (b : PmCreateBody) (hashed : String) :
    List (String × JVal) :=
  (match b.name with | some s => [("name", JVal.vstr s)] | none => []) ++
  (match b.number with | some s => [("number", JVal.vstr s)] | none => []) ++
  [("password", JVal.vstr hashed)]

/-- `newMethod.save()` runs the schema's `required` validation on `name` and
`number` (`password` is present by construction); a missing one rejects. -/
def savePaymentMethod (d : Doc) : Except String Doc :=
  if (d.get "name").isSome && (d.get "number").isSome then .ok d
  else .error "ValidationError"

/-- `POST /api/payment-methods` (src/server.js:561-572): hash the submitted
control password, save the new method and answer 201 with
`{ message, method: newMethod }` — the saved document, hash included;
wrapped in `try`/`catch` mapping failures (including a missing password,
which makes `bcrypt.hash` reject) to 500. -/
def createPaymentMethod (dbOk : Bool) (methods : List Doc) (nextId : Nat)
    (b : PmCreateBody) : Response × List Doc :=
  jsTryCatch methods ⟨500, .obj [("message",
      .vstr "Error adding payment method to database.")]⟩ <| do
    let hashedPassword ← bcryptHashF b.password
    let newMethod : Doc := ⟨nextId, newPaymentMethodFields b hashedPassword⟩
    let saved ← dbCall dbOk (savePaymentMethod newMethod)
    let newMethod ← saved
    return (⟨201, .withDoc [("message", .vstr "Payment method added successfully")]
      "method" newMethod⟩, methods ++ [newMethod])

/-- `GET /api/payment-methods` (src/server.js:574-582):
`PaymentMethod.find({}, { password: 0 })` — every method, with the hashed
password projected away — answered with 200; wrapped in `try`/`catch`. -/
def listPaymentMethods (dbOk : Bool) (methods : List Doc) :
    Response × List Doc :=
  jsTryCatch methods ⟨500, .obj [("message",
      .vstr "Error fetching payment methods from database.")]⟩ <| do
    let ms ← dbCall dbOk (methods.map (fun d => omitField d "password"))
    return (⟨200, .docs ms⟩, methods)

/-- `DELETE /api/payment-methods/:id` (src/server.js:584-605): 404 when the
identifier does not resolve; otherwise `bcrypt.compare` the submitted control
password against the stored hash — 401 on mismatch, else delete and 204.
Wrapped in `try`/`catch`: a store failure, and equally a `bcrypt.compare`
rejection (missing password field), becomes the generic 500. -/
def deletePaymentMethod (dbOk : Bool) (methods : List Doc) (i : Nat)
    (password : Option String) : Response × List Doc :=
  jsTryCatch methods ⟨500, .obj [("message",
      .vstr "Error deleting payment method from database.")]⟩ <| do
    let method ← dbCall dbOk (findById methods i)
    match method with
    | none =>
        return (⟨404, .obj [("message", .vstr "Payment method not found.")]⟩, methods)
    | some m =>
        let isMatch ← bcryptCompare password (m.getJ "password")
        if !isMatch then
          return (⟨401, .obj [("message", .vstr "Incorrect control password.")]⟩, methods)
        else
          let (_, methods') ← dbCall dbOk (findByIdAndDelete methods i)
          return (⟨204, .empty⟩, methods')

/-- The shared shape of the create handlers (`POST /api/lessons`,
`/api/subscriptions`, `/api/general-messages`, `/api/books`,
src/server.js:370-380, 421-431, 473-483, 510-520): build the document from
the body, save it and answer 201 with `{ message, <docKey>: newDoc }`;
wrapped in `try`/`catch` mapping store failures to 500. -/
def createDoc (dbOk : Bool) (coll : List Doc) (nextId : Nat)
    (body : List (String × JVal)) (okMsg errMsg docKey : String) :
    Response × List Doc :=
  jsTryCatch coll ⟨500, .obj [("message", .vstr errMsg)]⟩ <| do
    let newDoc : Doc := ⟨nextId, body⟩
    let _ ← dbCall dbOk ()   -- await newDoc.save()
    return (⟨201, .withDoc [("message", .vstr okMsg)] docKey newDoc⟩,
      coll ++ [newDoc])

/-- The shared shape of the list handlers (`GET /api/lessons`,
`/api/subscriptions`, `/api/general-messages`, `/api/books`,
src/server.js:382-390, 433-441, 485-493, 522-530): `Model.find({})`,
answered with 200; wrapped in `try`/`catch`. -/
def listDocs (dbOk : Bool) (coll : List Doc) (errMsg : String) :
    Response × List Doc :=
  jsTryCatch coll ⟨500, .obj [("message", .vstr errMsg)]⟩ <| do
    let ds ← dbCall dbOk coll
    return (⟨200, .docs ds⟩, coll)

/-- The SupportStaff document after the support-login handler's mutation:
`isOnline` set, `lastActivity` stamped. -/
def supportUpdated (u : Doc) (now : Int) : Doc :=
  ⟨u.id, setField (setField u.fields "isOnline" (.vbool true))
    "lastActivity" (.vnum now)⟩

/-- The Lesson document after `findByIdAndUpdate(id, body, { new: true })`. -/
def updatedDoc (d : Doc) (body : List (String × JVal)) : Doc :=
  ⟨d.id, applyUpdate d.fields body⟩


/-! ### Helper lemmas on the store operations -/

theorem lookupF_append (l l' : List (String × JVal)) (k : String) :
    lookupF (l ++ l') k =
      match lookupF l k with
      | some v => some v
      | none => lookupF l' k := by
  induction l with
  | nil => simp [lookupF]
  | cons p rest ih =>
      by_cases h : p.1 = k
      · cases p; simp_all [lookupF]
      · cases p; simp_all [lookupF]

theorem lookupF_map_replace (fs : List (String × JVal)) (k : String) (v : JVal)
    (h : (lookupF fs k).isSome) :
    lookupF (fs.map (fun p => if p.1 = k then (k, v) else p)) k = some v := by
  induction fs with
  | nil => simp [lookupF] at h
  | cons p rest ih =>
      obtain ⟨k₀, v₀⟩ := p
      rw [List.map_cons]
      by_cases hk : k₀ = k
      · have hstep : (if (k₀, v₀).1 = k then (k, v) else (k₀, v₀)) = (k, v) := by
          simp [hk]
        rw [hstep]
        simp [lookupF]
      · have hstep : (if (k₀, v₀).1 = k then (k, v) else (k₀, v₀)) = (k₀, v₀) := by
          simp [hk]
        have h' : (lookupF rest k).isSome = true := by simpa [lookupF, hk] using h
        rw [hstep]
        simp [lookupF, hk, ih h']

theorem lookupF_map_replace_ne (fs : List (String × JVal)) (k k' : String)
    (v : JVal) (h : k' ≠ k) :
    lookupF (fs.map (fun p => if p.1 = k then (k, v) else p)) k' =
      lookupF fs k' := by
  induction fs with
  | nil => simp [lookupF]
  | cons p rest ih =>
      obtain ⟨k₀, v₀⟩ := p
      rw [List.map_cons]
      by_cases hk : k₀ = k
      · have hstep : (if (k₀, v₀).1 = k then (k, v) else (k₀, v₀)) = (k, v) := by
          simp [hk]
        have hne : ¬ k = k' := fun hh => h hh.symm
        have hne₀ : ¬ k₀ = k' := hk ▸ hne
        rw [hstep]
        simp [lookupF, hne, hne₀, ih]
      · have hstep : (if (k₀, v₀).1 = k then (k, v) else (k₀, v₀)) = (k₀, v₀) := by
          simp [hk]
        rw [hstep]
        by_cases hk' : k₀ = k'
        · simp [lookupF, hk']
        · simp [lookupF, hk', ih]

theorem lookupF_setField_self (fs : List (String × JVal)) (k : String)
    (v : JVal) : lookupF (setField fs k v) k = some v := by
  unfold setField
  by_cases h : (lookupF fs k).isSome
  · simp [h, lookupF_map_replace fs k v h]
  · simp only [h, if_false, Bool.false_eq_true]
    rw [lookupF_append]
    simp only [Option.not_isSome_iff_eq_none] at h
    simp [h, lookupF]

theorem lookupF_setField_ne (fs : List (String × JVal)) (k k' : String)
    (v : JVal) (h : k' ≠ k) :
    lookupF (setField fs k v) k' = lookupF fs k' := by
  unfold setField
  by_cases hs : (lookupF fs k).isSome
  · simp [hs, lookupF_map_replace_ne fs k k' v h]
  · simp only [hs, if_false, Bool.false_eq_true]
    rw [lookupF_append]
    cases hl : lookupF fs k' with
    | some v' => simp
    | none =>
        have hne : ¬ k = k' := fun hh => h hh.symm
        simp [lookupF, hne]

theorem applyUpdate_not_mem (fs body : List (String × JVal)) (k : String)
    (h : k ∉ body.map Prod.fst) :
    lookupF (applyUpdate fs body) k = lookupF fs k := by
  induction body generalizing fs with
  | nil => simp [applyUpdate]
  | cons p rest ih =>
      simp only [List.map_cons, List.mem_cons] at h
      push_neg at h
      have step : applyUpdate fs (p :: rest) = applyUpdate (setField fs p.1 p.2) rest := rfl
      rw [step, ih _ h.2, lookupF_setField_ne fs p.1 k p.2 h.1]

theorem applyUpdate_mem (fs body : List (String × JVal)) (k : String) (v : JVal)
    (hnd : (body.map Prod.fst).Nodup) (h : lookupF body k = some v) :
    lookupF (applyUpdate fs body) k = some v := by
  induction body generalizing fs with
  | nil => simp [lookupF] at h
  | cons p rest ih =>
      obtain ⟨k₀, v₀⟩ := p
      have step : applyUpdate fs ((k₀, v₀) :: rest) =
          applyUpdate (setField fs k₀ v₀) rest := rfl
      simp only [List.map_cons, List.nodup_cons] at hnd
      by_cases hk : k₀ = k
      · subst hk
        simp only [lookupF, if_pos rfl] at h
        cases h
        rw [step, applyUpdate_not_mem _ _ _ hnd.1, lookupF_setField_self]
      · simp only [lookupF, hk, if_false] at h
        rw [step, ih _ hnd.2 h]

theorem lookupF_filter_self (fs : List (String × JVal)) (k : String) :
    lookupF (fs.filter (fun p => p.1 ≠ k)) k = none := by
  induction fs with
  | nil => simp [lookupF]
  | cons p rest ih =>
      obtain ⟨k₀, v₀⟩ := p
      by_cases h : k₀ = k
      · have hstep : ((k₀, v₀) :: rest).filter (fun p => p.1 ≠ k) =
            rest.filter (fun p => p.1 ≠ k) := by
          simp [List.filter_cons, h]
        rw [hstep]; exact ih
      · have hstep : ((k₀, v₀) :: rest).filter (fun p => p.1 ≠ k) =
            (k₀, v₀) :: rest.filter (fun p => p.1 ≠ k) := by
          simp [List.filter_cons, h]
        have hcons : lookupF ((k₀, v₀) ::
            rest.filter (fun p : String × JVal => p.1 ≠ k)) k =
            lookupF (rest.filter (fun p : String × JVal => p.1 ≠ k)) k := by
          simp [lookupF, h]
        rw [hstep, hcons]; exact ih

theorem findById_some_id (c : List Doc) (i : Nat) (d : Doc)
    (h : findById c i = some d) : d.id = i := by
  have := List.find?_some h
  simpa using this

theorem findById_map_replace (c : List Doc) (i : Nat) (d' : Doc)
    (hf : (findById c i).isSome) (hd : d'.id = i) :
    findById (c.map (fun e => if e.id = i then d' else e)) i = some d' := by
  induction c with
  | nil => simp [findById] at hf
  | cons e rest ih =>
      by_cases he : e.id = i
      · simp [findById, List.find?, he, hd]
      · have hf' : (findById rest i).isSome := by
          simpa [findById, List.find?, he] using hf
        simpa [findById, List.find?, he] using ih hf'

theorem find?_map {α β : Type} (g : α → β) (p : β → Bool) (l : List α) :
    (l.map g).find? p = (l.find? (fun a => p (g a))).map g := by
  induction l with
  | nil => simp
  | cons a rest ih =>
      by_cases h : p (g a)
      · simp [List.find?, h]
      · simp [List.find?, h, ih]

theorem except_pure_eq {α : Type} (a : α) :
    (pure a : Except String α) = Except.ok a := rfl

theorem except_bind_ok {α β : Type} (a : α) (f : α → Except String β) :
    (Except.ok a : Except String α) >>= f = f a := rfl

theorem except_bind_err {α β : Type} (e : String) (f : α → Except String β) :
    (Except.error e : Except String α) >>= f = Except.error e := rfl

/-! ### The claims -/

/-- C9: a successful `POST /api/payment-methods` answers 201 with a `method`
object that still carries the `password` field holding the stored bcrypt
hash — the create response, unlike the listing, does not exclude the hash. -/
theorem claim_c9 (methods : List Doc) (nextId : Nat) (nm num pw : String) :
    createPaymentMethod true methods nextId ⟨some nm, some num, some pw⟩ =
      (⟨201, .withDoc [("message", .vstr "Payment method added successfully")]
        "method"
        ⟨nextId, [("name", .vstr nm), ("number", .vstr num),
                  ("password", .vstr (bcryptHash pw))]⟩⟩,
       methods ++ [⟨nextId, [("name", .vstr nm), ("number", .vstr num),
                  ("password", .vstr (bcryptHash pw))]⟩]) ∧
    Doc.get ⟨nextId, [("name", .vstr nm), ("number", .vstr num),
        ("password", .vstr (bcryptHash pw))]⟩ "password" =
      some (.vstr (bcryptHash pw)) := by
  constructor
  · rfl
  · rfl

/-- C10: `DELETE /api/payment-methods/:id` with a body that omits the
`password` field, on an identifier that resolves, answers 500 (the
`bcrypt.compare` rejection is caught by the generic handler) — not 400 and
not 401 — and leaves the collection unchanged. -/
theorem claim_c10 (methods : List Doc) (i : Nat) (d : Doc)
    (h : findById methods i = some d) :
    deletePaymentMethod true methods i none =
      (⟨500, .obj [("message",
        .vstr "Error deleting payment method from database.")]⟩, methods) := by
  unfold deletePaymentMethod
  simp [dbCall, h, except_pure_eq, except_bind_ok, except_bind_err, bcryptCompare, jsTryCatch]

/-- Closed witness for C10: a one-method store, the identifier resolving,
the request body omitting the password. -/
theorem claim_c10_witness :
    deletePaymentMethod true
        [⟨4, [("name", .vstr "vodafone"), ("number", .vstr "0100"),
              ("password", .vstr (bcryptHash "secret"))]⟩] 4 none =
      (⟨500, .obj [("message",
        .vstr "Error deleting payment method from database.")]⟩,
       [⟨4, [("name", .vstr "vodafone"), ("number", .vstr "0100"),
             ("password", .vstr (bcryptHash "secret"))]⟩]) :=
  claim_c10 _ 4
    ⟨4, [("name", .vstr "vodafone"), ("number", .vstr "0100"),
         ("password", .vstr (bcryptHash "secret"))]⟩ (by rfl)

theorem findById_filter_self (c : List Doc) (i : Nat) :
    findById (c.filter (fun e => e.id ≠ i)) i = none := by
  unfold findById
  rw [List.find?_eq_none]
  intro d hd
  have hne := (List.mem_filter.mp hd).2
  simpa using hne

/-- C3: `DELETE /api/payment-methods/:id` on a resolving identifier answers
401 and leaves the store unchanged when the submitted plaintext does not
match the stored bcrypt hash, removes the document and answers 204 when it
matches, and answers 404 when the identifier does not resolve. -/
theorem claim_c3 (methods : List Doc) (i : Nat) :
    (findById methods i = none →
      ∀ pw : Option String, deletePaymentMethod true methods i pw =
        (⟨404, .obj [("message", .vstr "Payment method not found.")]⟩, methods)) ∧
    (∀ (d : Doc) (hsh p : String), findById methods i = some d →
      d.getJ "password" = .vstr hsh →
      (bcryptHash p ≠ hsh →
        deletePaymentMethod true methods i (some p) =
          (⟨401, .obj [("message", .vstr "Incorrect control password.")]⟩,
           methods)) ∧
      (bcryptHash p = hsh →
        deletePaymentMethod true methods i (some p) =
          (⟨204, .empty⟩, methods.filter (fun e => e.id ≠ i)) ∧
        findById (methods.filter (fun e => e.id ≠ i)) i = none)) := by
  constructor
  · intro h pw
    unfold deletePaymentMethod
    simp [dbCall, h, except_pure_eq, except_bind_ok, except_bind_err, jsTryCatch]
  · intro d hsh p hf hp
    constructor
    · intro hne
      unfold deletePaymentMethod
      simp [dbCall, hf, hp, except_pure_eq, except_bind_ok, except_bind_err, bcryptCompare,
        hne, jsTryCatch]
    · intro he
      refine ⟨?_, findById_filter_self methods i⟩
      unfold deletePaymentMethod
      simp [dbCall, hf, hp, except_pure_eq, except_bind_ok, except_bind_err, bcryptCompare,
        he, jsTryCatch, findByIdAndDelete]

/-- Closed witness for C3: a one-method store; the wrong password is
rejected with 401 leaving the store unchanged, the right one removes the
method with 204. -/
theorem claim_c3_witness :
    deletePaymentMethod true
        [⟨4, [("name", .vstr "vodafone"), ("number", .vstr "0100"),
              ("password", .vstr (bcryptHash "secret"))]⟩] 4 (some "wrong") =
      (⟨401, .obj [("message", .vstr "Incorrect control password.")]⟩,
       [⟨4, [("name", .vstr "vodafone"), ("number", .vstr "0100"),
             ("password", .vstr (bcryptHash "secret"))]⟩]) ∧
    deletePaymentMethod true
        [⟨4, [("name", .vstr "vodafone"), ("number", .vstr "0100"),
              ("password", .vstr (bcryptHash "secret"))]⟩] 4 (some "secret") =
      (⟨204, .empty⟩, []) := by
  constructor
  · exact ((claim_c3 _ 4).2 _ (bcryptHash "secret") "wrong" (by rfl) (by rfl)).1
      (by decide)
  · exact (((claim_c3 _ 4).2 _ (bcryptHash "secret") "secret" (by rfl)
      (by rfl)).2 (by rfl)).1

/-- C6: the delete handlers (lessons, subscriptions, general messages,
books) answer 404 and leave the collection unchanged when the identifier
does not resolve, and otherwise remove the document (a subsequent lookup
fails) and answer 204 with no body. -/
theorem claim_c6 (coll : List Doc) (i : Nat) (nfMsg errMsg : String) :
    (findById coll i = none →
      deleteById true coll i nfMsg errMsg =
        (⟨404, .obj [("message", .vstr nfMsg)]⟩, coll)) ∧
    (∀ d : Doc, findById coll i = some d →
      deleteById true coll i nfMsg errMsg =
        (⟨204, .empty⟩, coll.filter (fun e => e.id ≠ i)) ∧
      findById (coll.filter (fun e => e.id ≠ i)) i = none ∧
      ∀ e ∈ coll, e.id ≠ i → e ∈ coll.filter (fun e => e.id ≠ i)) ∧
    deleteLesson true coll i =
      deleteById true coll i "Lesson not found."
        "Error deleting lesson from database." ∧
    deleteSubscription true coll i =
      deleteById true coll i "Subscription not found."
        "Error deleting subscription from database." ∧
    deleteGeneralMessage true coll i =
      deleteById true coll i "General message not found."
        "Error deleting general message from database." ∧
    deleteBook true coll i =
      deleteById true coll i "Book not found."
        "Error deleting book from database." := by
  refine ⟨?_, ?_, rfl, rfl, rfl, rfl⟩
  · intro h
    unfold deleteById
    simp [dbCall, h, except_pure_eq, except_bind_ok, except_bind_err, jsTryCatch, findByIdAndDelete]
  · intro d hf
    refine ⟨?_, findById_filter_self coll i, ?_⟩
    · unfold deleteById
      simp [dbCall, hf, except_pure_eq, except_bind_ok, except_bind_err, jsTryCatch, findByIdAndDelete]
    · intro e he hne
      exact List.mem_filter.mpr ⟨he, by simpa using hne⟩

/-- Closed witness for C6: deleting a present lesson removes it; deleting a
missing one answers 404. -/
theorem claim_c6_witness :
    deleteById true [⟨1, [("title", .vstr "Algebra")]⟩] 1 "Lesson not found."
        "Error deleting lesson from database." =
      (⟨204, .empty⟩, []) ∧
    deleteById true [⟨1, [("title", .vstr "Algebra")]⟩] 2 "Lesson not found."
        "Error deleting lesson from database." =
      (⟨404, .obj [("message", .vstr "Lesson not found.")]⟩,
       [⟨1, [("title", .vstr "Algebra")]⟩]) := by
  constructor
  · exact ((claim_c6 [⟨1, [("title", .vstr "Algebra")]⟩] 1 "Lesson not found."
      "Error deleting lesson from database.").2.1 _ (by rfl)).1
  · exact (claim_c6 [⟨1, [("title", .vstr "Algebra")]⟩] 2 "Lesson not found."
      "Error deleting lesson from database.").1 (by rfl)

/-- C7: `GET /api/payment-methods` answers 200 with every stored method
projected through `{ password: 0 }`: no returned document carries the
`password` field, and the response depends only on the password-free part of
the store. -/
theorem claim_c7 (methods : List Doc) :
    listPaymentMethods true methods =
      (⟨200, .docs (methods.map (fun d => omitField d "password"))⟩, methods) ∧
    (∀ d ∈ methods.map (fun d => omitField d "password"),
      d.get "password" = none) ∧
    (∀ methods₂ : List Doc,
      methods.map (fun d => omitField d "password") =
        methods₂.map (fun d => omitField d "password") →
      (listPaymentMethods true methods).1 = (listPaymentMethods true methods₂).1) := by
  refine ⟨?_, ?_, ?_⟩
  · unfold listPaymentMethods
    simp [dbCall, except_pure_eq, except_bind_ok, jsTryCatch]
  · intro d hd
    obtain ⟨d₀, _, rfl⟩ := List.mem_map.mp hd
    exact lookupF_filter_self d₀.fields "password"
  · intro methods₂ he
    have h1 : (listPaymentMethods true methods).1 =
        ⟨200, .docs (methods.map (fun d => omitField d "password"))⟩ := by
      unfold listPaymentMethods
      simp [dbCall, except_pure_eq, except_bind_ok, jsTryCatch]
    have h2 : (listPaymentMethods true methods₂).1 =
        ⟨200, .docs (methods₂.map (fun d => omitField d "password"))⟩ := by
      unfold listPaymentMethods
      simp [dbCall, except_pure_eq, except_bind_ok, jsTryCatch]
    rw [h1, h2, he]

/-- Closed witness for C7: a store of two methods with different hashes
lists both without their `password` fields. -/
theorem claim_c7_witness :
    (∀ d ∈ [⟨4, [("name", .vstr "a"), ("password", .vstr "h1")]⟩,
            ⟨5, [("name", .vstr "b"), ("password", .vstr "h2")]⟩].map
        (fun d => omitField d "password"), d.get "password" = none) ∧
    (listPaymentMethods true
        [⟨4, [("name", .vstr "a"), ("password", .vstr "h1")]⟩,
         ⟨5, [("name", .vstr "b"), ("password", .vstr "h2")]⟩]).1 =
      (listPaymentMethods true
        [⟨4, [("name", .vstr "a"), ("password", .vstr "h3")]⟩,
         ⟨5, [("name", .vstr "b"), ("password", .vstr "h4")]⟩]).1 := by
  constructor
  · exact (claim_c7 _).2.1
  · exact (claim_c7 _).2.2 _ (by rfl)

theorem lookupF_eq_none_iff (l : List (String × JVal)) (k : String) :
    lookupF l k = none ↔ k ∉ l.map Prod.fst := by
  induction l with
  | nil => simp [lookupF]
  | cons p rest ih =>
      obtain ⟨k₀, v₀⟩ := p
      rw [List.map_cons, List.mem_cons]
      by_cases h : k₀ = k
      · have hv : lookupF ((k₀, v₀) :: rest) k = some v₀ := by simp [lookupF, h]
        rw [hv]
        simp [h]
      · have hv : lookupF ((k₀, v₀) :: rest) k = lookupF rest k := by
          simp [lookupF, h]
        rw [hv, ih]
        constructor
        · intro hnot hc
          rcases hc with hc | hc
          · exact h hc.symm
          · exact hnot hc
        · intro hnot hc
          exact hnot (Or.inr hc)

/-- C5: the update handlers (lessons, subscriptions, books) answer 404 and
leave the collection unchanged when the identifier does not resolve;
otherwise they answer 200 with the stored document whose fields named in the
request body are replaced by the submitted values, other fields unchanged,
and persist that merged document (a subsequent lookup returns it). -/
theorem claim_c5 (coll : List Doc) (i : Nat) (body : List (String × JVal))
    (okMsg nfMsg errMsg docKey : String) :
    (findById coll i = none →
      putById true coll i body okMsg nfMsg errMsg docKey =
        (⟨404, .obj [("message", .vstr nfMsg)]⟩, coll)) ∧
    (∀ d : Doc, findById coll i = some d → (body.map Prod.fst).Nodup →
      putById true coll i body okMsg nfMsg errMsg docKey =
        (⟨200, .withDoc [("message", .vstr okMsg)] docKey (updatedDoc d body)⟩,
         coll.map (fun e => if e.id = i then updatedDoc d body else e)) ∧
      (updatedDoc d body).id = d.id ∧
      (∀ k v, lookupF body k = some v → (updatedDoc d body).get k = some v) ∧
      (∀ k, lookupF body k = none → (updatedDoc d body).get k = d.get k) ∧
      findById (coll.map (fun e => if e.id = i then updatedDoc d body else e)) i =
        some (updatedDoc d body)) ∧
    updateLesson true coll i body =
      putById true coll i body "Lesson updated successfully" "Lesson not found."
        "Error updating lesson in database." "lesson" ∧
    updateSubscription true coll i body =
      putById true coll i body "Subscription updated successfully"
        "Subscription not found." "Error updating subscription in database."
        "subscription" ∧
    updateBook true coll i body =
      putById true coll i body "Book updated successfully" "Book not found."
        "Error updating book in database." "book" := by
  refine ⟨?_, ?_, rfl, rfl, rfl⟩
  · intro h
    unfold putById
    simp [dbCall, h, except_pure_eq, except_bind_ok, except_bind_err,
      jsTryCatch, findByIdAndUpdate]
  · intro d hf hnd
    refine ⟨?_, rfl, ?_, ?_, ?_⟩
    · unfold putById
      simp [dbCall, hf, except_pure_eq, except_bind_ok, except_bind_err,
        jsTryCatch, findByIdAndUpdate, updatedDoc]
    · intro k v hkv
      exact applyUpdate_mem d.fields body k v hnd hkv
    · intro k hk
      exact applyUpdate_not_mem d.fields body k ((lookupF_eq_none_iff body k).mp hk)
    · exact findById_map_replace coll i (updatedDoc d body)
        (by rw [hf]; rfl) (findById_some_id coll i d hf)

/-- Closed witness for C5: updating a present lesson's price merges the
field and persists; updating a missing identifier answers 404. -/
theorem claim_c5_witness :
    putById true [⟨1, [("title", .vstr "Algebra"), ("price", .vnum 100)]⟩] 1
        [("price", .vnum 150)] "Lesson updated successfully" "Lesson not found."
        "Error updating lesson in database." "lesson" =
      (⟨200, .withDoc [("message", .vstr "Lesson updated successfully")] "lesson"
          ⟨1, [("title", .vstr "Algebra"), ("price", .vnum 150)]⟩⟩,
       [⟨1, [("title", .vstr "Algebra"), ("price", .vnum 150)]⟩]) ∧
    putById true [⟨1, [("title", .vstr "Algebra"), ("price", .vnum 100)]⟩] 2
        [("price", .vnum 150)] "Lesson updated successfully" "Lesson not found."
        "Error updating lesson in database." "lesson" =
      (⟨404, .obj [("message", .vstr "Lesson not found.")]⟩,
       [⟨1, [("title", .vstr "Algebra"), ("price", .vnum 100)]⟩]) := by
  constructor
  · exact ((claim_c5 [⟨1, [("title", .vstr "Algebra"), ("price", .vnum 100)]⟩] 1
      [("price", .vnum 150)] "Lesson updated successfully" "Lesson not found."
      "Error updating lesson in database." "lesson").2.1 _ (by rfl) (by decide)).1
  · exact (claim_c5 [⟨1, [("title", .vstr "Algebra"), ("price", .vnum 100)]⟩] 2
      [("price", .vnum 150)] "Lesson updated successfully" "Lesson not found."
      "Error updating lesson in database." "lesson").1 (by rfl)

theorem findById_isSome_of_mem (c : List Doc) (u : Doc) (h : u ∈ c) :
    (findById c u.id).isSome := by
  induction c with
  | nil => simp at h
  | cons e rest ih =>
      by_cases he : e.id = u.id
      · simp [findById, List.find?, he]
      · rcases List.mem_cons.mp h with h1 | h2
        · rw [h1] at he; simp at he
        · simpa [findById, List.find?, he] using ih h2

theorem findSupport_map_pw (staff : List Doc) (n c : String) (f : Doc → JVal) :
    findSupport
        (staff.map (fun d => ⟨d.id, setField d.fields "password" (f d)⟩)) n c =
      (findSupport staff n c).map
        (fun d => ⟨d.id, setField d.fields "password" (f d)⟩) := by
  unfold findSupport
  simp only [find?_map]
  have hpred : (fun a : Doc =>
      supportMatch n c ⟨a.id, setField a.fields "password" (f a)⟩) =
      supportMatch n c := by
    funext a
    unfold supportMatch
    rw [show Doc.get ⟨a.id, setField a.fields "password" (f a)⟩ "fullName" =
          a.get "fullName" from
        lookupF_setField_ne a.fields "password" "fullName" (f a) (by decide),
      show Doc.get ⟨a.id, setField a.fields "password" (f a)⟩ "supportCode" =
          a.get "supportCode" from
        lookupF_setField_ne a.fields "password" "supportCode" (f a) (by decide)]
  rw [hpred]

/-- C8: `POST /api/auth/support-login` on a SupportStaff matching the
submitted full name and support code sets `isOnline`, stamps `lastActivity`
with the current time, persists the change and answers 200; with no match it
answers 401.  No password is checked: the response does not depend on the
stored password fields. -/
theorem claim_c8 (staff : List Doc) (now : Int) (n c : String) :
    (findSupport staff n c = none →
      supportLogin true staff now n c =
        (⟨401, .obj [("message", .vstr "Invalid support credentials.")]⟩, staff)) ∧
    (∀ u : Doc, findSupport staff n c = some u →
      supportLogin true staff now n c =
        (⟨200, loginOkBody "Support login successful" (supportUpdated u now)
            "support"⟩,
         staff.map (fun d => if d.id = u.id then supportUpdated u now else d)) ∧
      (supportUpdated u now).get "isOnline" = some (.vbool true) ∧
      (supportUpdated u now).get "lastActivity" = some (.vnum now) ∧
      (∀ k, k ≠ "isOnline" → k ≠ "lastActivity" →
        (supportUpdated u now).get k = u.get k) ∧
      findById (staff.map (fun d => if d.id = u.id then supportUpdated u now else d))
          u.id = some (supportUpdated u now)) ∧
    (∀ f : Doc → JVal,
      (supportLogin true
          (staff.map (fun d => ⟨d.id, setField d.fields "password" (f d)⟩))
          now n c).1 =
        (supportLogin true staff now n c).1) := by
  refine ⟨?_, ?_, ?_⟩
  · intro h
    unfold supportLogin
    simp [dbCall, h, except_pure_eq, except_bind_ok, except_bind_err, jsTryCatch]
  · intro u hf
    refine ⟨?_, ?_, ?_, ?_, ?_⟩
    · unfold supportLogin supportUpdated
      simp [dbCall, hf, except_pure_eq, except_bind_ok, except_bind_err, jsTryCatch]
    · show lookupF (setField (setField u.fields "isOnline" (.vbool true))
        "lastActivity" (.vnum now)) "isOnline" = some (.vbool true)
      rw [lookupF_setField_ne (setField u.fields "isOnline" (.vbool true))
        "lastActivity" "isOnline" (.vnum now) (by decide)]
      exact lookupF_setField_self u.fields "isOnline" (.vbool true)
    · exact lookupF_setField_self _ "lastActivity" (.vnum now)
    · intro k h1 h2
      show lookupF (setField (setField u.fields "isOnline" (.vbool true))
        "lastActivity" (.vnum now)) k = u.get k
      rw [lookupF_setField_ne (setField u.fields "isOnline" (.vbool true))
          "lastActivity" k (.vnum now) h2,
        lookupF_setField_ne u.fields "isOnline" k (.vbool true) h1]
      rfl
    · exact findById_map_replace staff u.id (supportUpdated u now)
        (findById_isSome_of_mem staff u (List.mem_of_find?_eq_some hf)) rfl
  · intro f
    have hmap := findSupport_map_pw staff n c f
    cases hcase : findSupport staff n c with
    | none =>
        have hm2 : findSupport
            (staff.map (fun d => ⟨d.id, setField d.fields "password" (f d)⟩)) n c =
            none := by rw [hmap, hcase]; rfl
        unfold supportLogin
        simp [dbCall, hcase, hm2, except_pure_eq, except_bind_ok,
          except_bind_err, jsTryCatch]
    | some u =>
        have hm2 : findSupport
            (staff.map (fun d => ⟨d.id, setField d.fields "password" (f d)⟩)) n c =
            some ⟨u.id, setField u.fields "password" (f u)⟩ := by
          rw [hmap, hcase]; rfl
        have hju : ∀ w : Doc,
            Doc.getJ ⟨w.id, setField (setField w.fields "isOnline" (.vbool true))
              "lastActivity" (.vnum now)⟩ "fullName" = w.getJ "fullName" := by
          intro w
          unfold Doc.getJ
          rw [lookupF_setField_ne (setField w.fields "isOnline" (.vbool true))
              "lastActivity" "fullName" (.vnum now) (by decide),
            lookupF_setField_ne w.fields "isOnline" "fullName" (.vbool true)
              (by decide)]
        have hpw : Doc.getJ (⟨u.id, setField u.fields "password" (f u)⟩ : Doc)
            "fullName" = u.getJ "fullName" := by
          unfold Doc.getJ
          rw [lookupF_setField_ne u.fields "password" "fullName" (f u) (by decide)]
        unfold supportLogin loginOkBody
        simp [dbCall, hcase, hm2, except_pure_eq, except_bind_ok,
          except_bind_err, jsTryCatch, hju, hpw]

/-- Closed witness for C8: a one-member staff collection; the matching
name/code logs the member in (online flag set, activity stamped), a wrong
code is rejected 401; altering the stored password does not change the
response. -/
theorem claim_c8_witness :
    supportLogin true [⟨2, [("fullName", .vstr "Sara"),
        ("supportCode", .vstr "S1"), ("password", .vstr "h")]⟩] 99 "Sara" "S1" =
      (⟨200, loginOkBody "Support login successful"
          (supportUpdated ⟨2, [("fullName", .vstr "Sara"),
            ("supportCode", .vstr "S1"), ("password", .vstr "h")]⟩ 99) "support"⟩,
       [supportUpdated ⟨2, [("fullName", .vstr "Sara"),
          ("supportCode", .vstr "S1"), ("password", .vstr "h")]⟩ 99]) ∧
    supportLogin true [⟨2, [("fullName", .vstr "Sara"),
        ("supportCode", .vstr "S1"), ("password", .vstr "h")]⟩] 99 "Sara" "S2" =
      (⟨401, .obj [("message", .vstr "Invalid support credentials.")]⟩,
       [⟨2, [("fullName", .vstr "Sara"), ("supportCode", .vstr "S1"),
             ("password", .vstr "h")]⟩]) := by
  constructor
  · have h := ((claim_c8 [⟨2, [("fullName", .vstr "Sara"),
      ("supportCode", .vstr "S1"), ("password", .vstr "h")]⟩] 99 "Sara" "S1").2.1
      ⟨2, [("fullName", .vstr "Sara"), ("supportCode", .vstr "S1"),
        ("password", .vstr "h")]⟩ (by rfl)).1
    simpa using h
  · exact (claim_c8 [⟨2, [("fullName", .vstr "Sara"),
      ("supportCode", .vstr "S1"), ("password", .vstr "h")]⟩] 99 "Sara" "S2").1
      (by rfl)

/-- C2: `POST /api/auth/teacher-login` answers 200 exactly when the
submitted name/code/phone equal the hardcoded triple
`('Mahmoud only', 'HHDV/58HR', '01050747978')`; any mismatch answers 401 and
creates nothing; a matching login finds the Teacher by code when one exists
(creating nothing) and otherwise creates exactly one Teacher document. -/
theorem claim_c2 (teachers : List Doc) (nextId : Nat) (n c p : String) :
    (¬(n = "Mahmoud only" ∧ c = "HHDV/58HR" ∧ p = "01050747978") →
      teacherLogin true teachers nextId n c p =
        .ok (⟨401, .obj [("message", .vstr "Invalid teacher credentials.")]⟩,
          teachers)) ∧
    (n = "Mahmoud only" → c = "HHDV/58HR" → p = "01050747978" →
      (∀ t : Doc, findTeacherByCode teachers c = some t →
        teacherLogin true teachers nextId n c p =
          .ok (⟨200, loginOkBody "Teacher login successful" t "teacher"⟩,
            teachers)) ∧
      (findTeacherByCode teachers c = none →
        teacherLogin true teachers nextId n c p =
          .ok (⟨200, loginOkBody "Teacher login successful"
              (newTeacherDoc nextId n c p) "teacher"⟩,
            teachers ++ [newTeacherDoc nextId n c p]))) ∧
    ((∃ r : Response, ∃ st : List Doc,
        teacherLogin true teachers nextId n c p = .ok (r, st) ∧ r.status = 200) ↔
      (n = "Mahmoud only" ∧ c = "HHDV/58HR" ∧ p = "01050747978")) := by
  have h401 : ¬(n = "Mahmoud only" ∧ c = "HHDV/58HR" ∧ p = "01050747978") →
      teacherLogin true teachers nextId n c p =
        .ok (⟨401, .obj [("message", .vstr "Invalid teacher credentials.")]⟩,
          teachers) := by
    intro h
    by_cases hn : n = "Mahmoud only" <;> by_cases hc : c = "HHDV/58HR" <;>
      by_cases hp : p = "01050747978"
    · exact absurd ⟨hn, hc, hp⟩ h
    all_goals unfold teacherLogin
    all_goals simp [hn, hc, hp, except_pure_eq]
  refine ⟨h401, ?_, ?_⟩
  · intro hn hc hp
    subst hn; subst hc; subst hp
    constructor
    · intro t ht
      unfold teacherLogin
      simp [ht, dbCall, except_pure_eq, except_bind_ok, except_bind_err]
    · intro hnone
      unfold teacherLogin
      simp [hnone, dbCall, except_pure_eq, except_bind_ok, except_bind_err]
  · constructor
    · rintro ⟨r, st, heq, hs⟩
      by_contra htriple
      rw [h401 htriple] at heq
      obtain ⟨hr, _⟩ := Prod.mk.injEq _ _ _ _ ▸ (Except.ok.injEq _ _ ▸ heq)
      rw [← hr] at hs
      simp at hs
    · rintro ⟨hn, hc, hp⟩
      subst hn; subst hc; subst hp
      cases hfind : findTeacherByCode teachers "HHDV/58HR" with
      | some t =>
          refine ⟨⟨200, loginOkBody "Teacher login successful" t "teacher"⟩,
            teachers, ?_, rfl⟩
          unfold teacherLogin
          simp [hfind, dbCall, except_pure_eq, except_bind_ok, except_bind_err]
      | none =>
          refine ⟨⟨200, loginOkBody "Teacher login successful"
              (newTeacherDoc nextId "Mahmoud only" "HHDV/58HR" "01050747978")
              "teacher"⟩,
            teachers ++ [newTeacherDoc nextId "Mahmoud only" "HHDV/58HR"
              "01050747978"], ?_, rfl⟩
          unfold teacherLogin
          simp [hfind, dbCall, except_pure_eq, except_bind_ok, except_bind_err]

/-- Closed witness for C2: with an empty Teacher collection the exact triple
logs in and creates the one Teacher document; a wrong name answers 401 and
creates nothing. -/
theorem claim_c2_witness :
    teacherLogin true [] 5 "Mahmoud only" "HHDV/58HR" "01050747978" =
      .ok (⟨200, loginOkBody "Teacher login successful"
          (newTeacherDoc 5 "Mahmoud only" "HHDV/58HR" "01050747978") "teacher"⟩,
        [newTeacherDoc 5 "Mahmoud only" "HHDV/58HR" "01050747978"]) ∧
    teacherLogin true [] 5 "Mahmoud" "HHDV/58HR" "01050747978" =
      .ok (⟨401, .obj [("message", .vstr "Invalid teacher credentials.")]⟩, []) := by
  constructor
  · have h := ((claim_c2 [] 5 "Mahmoud only" "HHDV/58HR" "01050747978").2.1
      rfl rfl rfl).2 (by rfl)
    simpa using h
  · exact (claim_c2 [] 5 "Mahmoud" "HHDV/58HR" "01050747978").1 (by decide)

/-- C1 counterexample: the claim's trichotomy fails on a present-but-empty
field.  A registration whose `fullName` is the empty string — submitted, so
not missing, and with no duplicate in an empty store — is answered 400 with
no document created, where the claim's `otherwise` branch demands 201 and a
created Student. -/
theorem claim_c1_counterexample :
    register true [] 0 ⟨some "", some "123", some "456", some "pw", some "first"⟩ =
      (⟨400, .obj [("message", .vstr "All fields are required.")]⟩, []) ∧
    (register true [] 0
      ⟨some "", some "123", some "456", some "pw", some "first"⟩).1.status ≠ 201 ∧
    (register true [] 0
      ⟨some "", some "123", some "456", some "pw", some "first"⟩).2 = [] := by
  exact ⟨rfl, by decide, rfl⟩

/-- C1 (amended): a field that is missing **or falsy (empty)** is answered
400 with no document; with all five fields non-empty, a duplicate student
number or full name is answered 409 with no document; otherwise exactly one
Student is created — password the bcrypt hash of the submitted password,
balance 0, points 0, `isBanned` false — and 201 carries its identifier. -/
theorem claim_c1_amended (students : List Doc) (nextId : Nat) :
    (∀ b : RegisterBody, regMissing b = true →
      register true students nextId b =
        (⟨400, .obj [("message", .vstr "All fields are required.")]⟩, students)) ∧
    (∀ fn sn pn pw gl : String,
      fn ≠ "" → sn ≠ "" → pn ≠ "" → pw ≠ "" → gl ≠ "" →
      ((∃ d, findDupStudent students sn fn = some d) →
        register true students nextId ⟨some fn, some sn, some pn, some pw, some gl⟩ =
          (⟨409, .obj [("message",
            .vstr "Student with this number or name already exists.")]⟩, students)) ∧
      (findDupStudent students sn fn = none →
        register true students nextId ⟨some fn, some sn, some pn, some pw, some gl⟩ =
          (⟨201, .obj [("message", .vstr "Student registered successfully"),
              ("studentId", .vnum nextId)]⟩,
           students ++ [newStudentDoc nextId fn sn pn pw gl]) ∧
        (newStudentDoc nextId fn sn pn pw gl).get "password" =
          some (.vstr (bcryptHash pw)) ∧
        (newStudentDoc nextId fn sn pn pw gl).get "balance" = some (.vnum 0) ∧
        (newStudentDoc nextId fn sn pn pw gl).get "points" = some (.vnum 0) ∧
        (newStudentDoc nextId fn sn pn pw gl).get "isBanned" =
          some (.vbool false))) := by
  constructor
  · rintro ⟨fn, sn, pn, pw, gl⟩ h
    cases fn with
    | none => rfl
    | some fn =>
        cases sn with
        | none => rfl
        | some sn =>
            cases pn with
            | none => rfl
            | some pn =>
                cases pw with
                | none => rfl
                | some pw =>
                    cases gl with
                    | none => rfl
                    | some gl =>
                        simp [regMissing, falsy] at h
                        unfold register
                        rcases h with ((((h | h) | h) | h) | h) <;>
                          simp [h, except_pure_eq, jsTryCatch]
  · intro fn sn pn pw gl h1 h2 h3 h4 h5
    constructor
    · rintro ⟨d, hd⟩
      unfold register
      simp [h1, h2, h3, h4, h5, hd, dbCall, except_pure_eq, except_bind_ok,
        except_bind_err, jsTryCatch]
    · intro hnone
      refine ⟨?_, rfl, rfl, rfl, rfl⟩
      unfold register
      simp [h1, h2, h3, h4, h5, hnone, dbCall, except_pure_eq, except_bind_ok,
        except_bind_err, jsTryCatch]

/-- Closed witness for C1 (amended): a fresh registration creates the
Student (201), a duplicate student number is rejected (409), a missing
field is rejected (400). -/
theorem claim_c1_witness :
    register true [] 7 ⟨some "Ali", some "123", some "456", some "pw", some "first"⟩ =
      (⟨201, .obj [("message", .vstr "Student registered successfully"),
          ("studentId", .vnum 7)]⟩,
       [newStudentDoc 7 "Ali" "123" "456" "pw" "first"]) ∧
    register true [newStudentDoc 3 "Ali" "123" "456" "x" "first"] 7
        ⟨some "Bob", some "123", some "999", some "pw", some "second"⟩ =
      (⟨409, .obj [("message",
          .vstr "Student with this number or name already exists.")]⟩,
       [newStudentDoc 3 "Ali" "123" "456" "x" "first"]) ∧
    register true [] 7 ⟨none, some "123", some "456", some "pw", some "first"⟩ =
      (⟨400, .obj [("message", .vstr "All fields are required.")]⟩, []) := by
  refine ⟨?_, ?_, ?_⟩
  · exact (((claim_c1_amended [] 7).2 "Ali" "123" "456" "pw" "first"
      (by decide) (by decide) (by decide) (by decide) (by decide)).2 (by rfl)).1
  · exact ((claim_c1_amended [newStudentDoc 3 "Ali" "123" "456" "x" "first"] 7).2
      "Bob" "123" "999" "pw" "second"
      (by decide) (by decide) (by decide) (by decide) (by decide)).1
      ⟨newStudentDoc 3 "Ali" "123" "456" "x" "first", by rfl⟩
  · exact (claim_c1_amended [] 7).1
      ⟨none, some "123", some "456", some "pw", some "first"⟩ (by rfl)

/-- C4 counterexample: `POST /api/auth/teacher-login` has no `try`/`catch`,
so with matching credentials and a failing store the handler's result is the
escaped rejection — no 500 response (nor any response) is produced, where
the claim demands a caught failure answered 500. -/
theorem claim_c4_counterexample :
    teacherLogin false [] 0 "Mahmoud only" "HHDV/58HR" "01050747978" =
      .error "db" := by
  rfl

/-- C4 (amended): every handler except `POST /api/auth/teacher-login` wraps
its body in `try`/`catch` and maps any storage-layer failure to HTTP 500
with a generic message, leaving its collection as it was (short-circuiting
validation answers, reached before any store call, aside); teacher-login
alone, lacking the `try`/`catch`, answers 401 without touching the store on
a credential mismatch but lets the storage failure escape unhandled on a
match. -/
theorem claim_c4_amended :
    (∀ (students : List Doc) (nextId : Nat) (b : RegisterBody),
      register false students nextId b =
        (⟨500, .obj [("message", .vstr "Server error during registration.")]⟩,
          students) ∨
      register false students nextId b =
        (⟨400, .obj [("message", .vstr "All fields are required.")]⟩, students)) ∧
    (∀ (staff : List Doc) (now : Int) (n c : String),
      supportLogin false staff now n c =
        (⟨500, .obj [("message", .vstr "Server error during support login.")]⟩,
          staff)) ∧
    (∀ (coll : List Doc) (i : Nat) (body : List (String × JVal))
        (okMsg nfMsg errMsg docKey : String),
      putById false coll i body okMsg nfMsg errMsg docKey =
        (⟨500, .obj [("message", .vstr errMsg)]⟩, coll)) ∧
    (∀ (coll : List Doc) (i : Nat) (nfMsg errMsg : String),
      deleteById false coll i nfMsg errMsg =
        (⟨500, .obj [("message", .vstr errMsg)]⟩, coll)) ∧
    (∀ (coll : List Doc) (nextId : Nat) (body : List (String × JVal))
        (okMsg errMsg docKey : String),
      createDoc false coll nextId body okMsg errMsg docKey =
        (⟨500, .obj [("message", .vstr errMsg)]⟩, coll)) ∧
    (∀ (coll : List Doc) (errMsg : String),
      listDocs false coll errMsg =
        (⟨500, .obj [("message", .vstr errMsg)]⟩, coll)) ∧
    (∀ (methods : List Doc) (nextId : Nat) (b : PmCreateBody),
      createPaymentMethod false methods nextId b =
        (⟨500, .obj [("message",
          .vstr "Error adding payment method to database.")]⟩, methods)) ∧
    (∀ methods : List Doc,
      listPaymentMethods false methods =
        (⟨500, .obj [("message",
          .vstr "Error fetching payment methods from database.")]⟩, methods)) ∧
    (∀ (methods : List Doc) (i : Nat) (pw : Option String),
      deletePaymentMethod false methods i pw =
        (⟨500, .obj [("message",
          .vstr "Error deleting payment method from database.")]⟩, methods)) ∧
    (∀ (teachers : List Doc) (nextId : Nat) (n c p : String),
      teacherLogin false teachers nextId n c p = .error "db" ∨
      teacherLogin false teachers nextId n c p =
        .ok (⟨401, .obj [("message", .vstr "Invalid teacher credentials.")]⟩,
          teachers)) := by
  refine ⟨?_, ?_, ?_, ?_, ?_, ?_, ?_, ?_, ?_, ?_⟩
  · intro students nextId b
    rcases b with ⟨fn, sn, pn, pw, gl⟩
    cases fn with
    | none => exact Or.inr rfl
    | some fn =>
        cases sn with
        | none => exact Or.inr rfl
        | some sn =>
            cases pn with
            | none => exact Or.inr rfl
            | some pn =>
                cases pw with
                | none => exact Or.inr rfl
                | some pw =>
                    cases gl with
                    | none => exact Or.inr rfl
                    | some gl =>
                        by_cases h : fn = "" ∨ sn = "" ∨ pn = "" ∨ pw = "" ∨ gl = ""
                        · right
                          unfold register
                          rcases h with h | h | h | h | h <;>
                            simp [h, except_pure_eq, jsTryCatch]
                        · push_neg at h
                          obtain ⟨h1, h2, h3, h4, h5⟩ := h
                          left
                          unfold register
                          simp [h1, h2, h3, h4, h5, dbCall, except_pure_eq,
                            except_bind_ok, except_bind_err, jsTryCatch]
  · intro staff now n c
    rfl
  · intro coll i body okMsg nfMsg errMsg docKey
    rfl
  · intro coll i nfMsg errMsg
    rfl
  · intro coll nextId body okMsg errMsg docKey
    rfl
  · intro coll errMsg
    rfl
  · intro methods nextId b
    rcases b with ⟨nm, num, pw⟩
    cases pw <;> rfl
  · intro methods
    rfl
  · intro methods i pw
    rfl
  · intro teachers nextId n c p
    by_cases htr : n = "Mahmoud only" ∧ c = "HHDV/58HR" ∧ p = "01050747978"
    · obtain ⟨hn, hc, hp⟩ := htr
      subst hn; subst hc; subst hp
      exact Or.inl rfl
    · right
      by_cases hn : n = "Mahmoud only" <;> by_cases hc : c = "HHDV/58HR" <;>
        by_cases hp : p = "01050747978"
      · exact absurd ⟨hn, hc, hp⟩ htr
      all_goals unfold teacherLogin
      all_goals simp [hn, hc, hp, except_pure_eq]
